import Mathlib

/-!
Verification of the GameBoy-Emulator repository's single source file,
`src/driver.c`: a minimal Winsock TCP client that connects to
`127.0.0.1:12345`, prints a success message, loops reading up to 256 bytes
at a time and printing the buffer as a C string, then closes the socket,
releases Winsock and returns 0.

The program is embedded shallowly as a pure function from an environment
(the outcomes the OS produces for each library call: `WSAStartup`,
`socket`, `connect`, and the sequence of `recv` results) together with the
initial, indeterminate contents of the 256-byte stack buffer, to an
optional event trace (printed messages, the socket-creation and
connect calls, `closesocket`, `WSACleanup`) paired with the process exit
code.  `none` models the program blocking forever in `recv`.
-/

namespace GBEmuDriver

/-- `#define PORT 12345` in driver.c. -/
def PORT : Nat := 12345

/-- `#define BUFFER_SIZE 256` in driver.c. -/
def BUFFER_SIZE : Nat := 256

/-- The Winsock constant `AF_INET` (value 2), passed to `socket`. -/
def AF_INET : Nat := 2

/-- The Winsock constant `SOCK_STREAM` (value 1), passed to `socket`. -/
def SOCK_STREAM : Nat := 1

/-- The string literal `"127.0.0.1"` passed to `inet_addr` in driver.c. -/
def SERVER_ADDR : String := "127.0.0.1"

/-- Outcome the OS produces for one `recv` call: either some bytes are
available (`recv` returns up to the requested length of them), the peer
closed the stream (`recv` returns 0), or a socket error
(`recv` returns `SOCKET_ERROR`). -/
inductive RecvOutcome where
  | avail (bytes : List Nat)
  | closed
  | sockError
deriving DecidableEq, Repr

/-- The OS-chosen outcomes of every fallible library call the program
makes, in program order. -/
structure Env where
  wsaStartupOk : Bool
  socketOk : Bool
  connectOk : Bool
  recvOutcomes : List RecvOutcome

/-- The distinct messages driver.c can `printf`.  `received` carries the
byte string substituted for `%s`. -/
inductive Msg where
  | wsaStartupFailed
  | socketCreationFailed
  | connectionFailed
  | connected
  | received (bytes : List Nat)
  | receiveFailed
deriving DecidableEq, Repr

/-- Observable actions of a run: each `printf`, the `socket` call with its
three arguments, the `connect` call with its target, and the two teardown
calls `closesocket` and `WSACleanup`. -/
inductive Event where
  | print (m : Msg)
  | socketCreate (family stype protocol : Nat)
  | connectAttempt (addr : String) (port : Nat)
  | closesocket
  | wsaCleanup
deriving DecidableEq, Repr

/-- Effect of `recv` writing `chunk` into the front of the buffer: bytes
beyond `chunk.length` keep their previous (possibly stale) values, exactly
as the C buffer is overwritten only up to `recv_size`. -/
def writeBytes (buf chunk : List Nat) : List Nat :=
  chunk ++ buf.drop chunk.length

/-- What `printf("... %s\n", buffer)` emits: the buffer's bytes up to the
first NUL byte. -/
def cstr (buf : List Nat) : List Nat :=
  buf.takeWhile (fun b => b != 0)

/-- The `while ((recv_size = recv(sock, buffer, BUFFER_SIZE, 0)) > 0)`
loop of driver.c.  Given the remaining OS outcomes and the current buffer
contents it returns the list of byte strings printed by the loop body and
whether the loop ended in the `recv_size == SOCKET_ERROR` state; `none`
models `recv` blocking forever because the OS never produces another
outcome. -/
def recvLoop : List RecvOutcome → List Nat → Option (List (List Nat) × Bool)
  | [], _ => none
  | (RecvOutcome.avail bs) :: rest, buf =>
      if (bs.take BUFFER_SIZE).length > 0 then
        (recvLoop rest (writeBytes buf (bs.take BUFFER_SIZE))).map
          (fun p => (cstr (writeBytes buf (bs.take BUFFER_SIZE)) :: p.1, p.2))
      else
        some ([], false)
  | RecvOutcome.closed :: _, _ => some ([], false)
  | RecvOutcome.sockError :: _, _ => some ([], true)

/-- The `main` of driver.c: initialize Winsock, create the socket,
connect to `SERVER_ADDR:PORT`, run the receive loop, print
`"Receive failed."` when the loop ended on `SOCKET_ERROR`, close the
socket, release Winsock and return 0; each failing step before the loop
prints its message and returns 1 immediately.  `initBuf` is the
indeterminate initial content of the 256-byte stack buffer. -/
def driverMain (env : Env) (initBuf : List Nat) : Option (List Event × Nat) :=
  if env.wsaStartupOk = false then
    some ([Event.print Msg.wsaStartupFailed], 1)
  else if env.socketOk = false then
    some ([Event.socketCreate AF_INET SOCK_STREAM 0,
           Event.print Msg.socketCreationFailed], 1)
  else if env.connectOk = false then
    some ([Event.socketCreate AF_INET SOCK_STREAM 0,
           Event.connectAttempt SERVER_ADDR PORT,
           Event.print Msg.connectionFailed], 1)
  else
    (recvLoop env.recvOutcomes initBuf).map
      (fun p =>
        (([Event.socketCreate AF_INET SOCK_STREAM 0,
           Event.connectAttempt SERVER_ADDR PORT,
           Event.print Msg.connected]
          ++ p.1.map (fun s => Event.print (Msg.received s))
          ++ (if p.2 then [Event.print Msg.receiveFailed] else [])
          ++ [Event.closesocket, Event.wsaCleanup]), 0))

/-- The chunks the receive loop actually consumes from a list of OS
outcomes before it stops: each is the available bytes truncated to
`BUFFER_SIZE`, and consumption stops at the first close, error, or empty
delivery. -/
def consumedChunks : List RecvOutcome → List (List Nat)
  | [] => []
  | (RecvOutcome.avail bs) :: rest =>
      if (bs.take BUFFER_SIZE).length > 0 then
        bs.take BUFFER_SIZE :: consumedChunks rest
      else []
  | RecvOutcome.closed :: _ => []
  | RecvOutcome.sockError :: _ => []

/-- Successive buffer contents after each chunk of `chunks` is written
into the buffer, starting from `buf`. -/
def bufferStates (buf : List Nat) : List (List Nat) → List (List Nat)
  | [] => []
  | c :: cs => writeBytes buf c :: bufferStates (writeBytes buf c) cs

/-- The type of a printed message, forgetting the payload of a
received-data message. -/
inductive MsgTag where
  | startupFailT
  | socketFailT
  | connectFailT
  | connectedT
  | dataT
  | recvFailT
deriving DecidableEq, Repr

/-- The tag of a message. -/
def msgTag : Msg → MsgTag
  | Msg.wsaStartupFailed => MsgTag.startupFailT
  | Msg.socketCreationFailed => MsgTag.socketFailT
  | Msg.connectionFailed => MsgTag.connectFailT
  | Msg.connected => MsgTag.connectedT
  | Msg.received _ => MsgTag.dataT
  | Msg.receiveFailed => MsgTag.recvFailT

/-- The type of an event, forgetting printed payloads and call
arguments. -/
inductive EventTag where
  | printT (t : MsgTag)
  | socketCreateT
  | connectT
  | closeT
  | cleanupT
deriving DecidableEq, Repr

/-- The tag of an event. -/
def eventTag : Event → EventTag
  | Event.print m => EventTag.printT (msgTag m)
  | Event.socketCreate _ _ _ => EventTag.socketCreateT
  | Event.connectAttempt _ _ => EventTag.connectT
  | Event.closesocket => EventTag.closeT
  | Event.wsaCleanup => EventTag.cleanupT

/-- The observable shape of a finished run: the sequence of event tags
(message types) and the exit code. -/
def observable (r : List Event × Nat) : List EventTag × Nat :=
  (r.1.map eventTag, r.2)

/-- The bytes of the string `"hello"`. -/
def helloBytes : List Nat := [104, 101, 108, 108, 111]

/-- The events of every run up to and including the success message:
the `socket` call, the `connect` call, and the `"Connected to Gameboy
emulator."` print. -/
def connectedPrefix : List Event :=
  [Event.socketCreate AF_INET SOCK_STREAM 0,
   Event.connectAttempt SERVER_ADDR PORT,
   Event.print Msg.connected]

/-- The teardown events: `closesocket(sock)` then `WSACleanup()`. -/
def teardownEvents : List Event :=
  [Event.closesocket, Event.wsaCleanup]

/-- The full event trace of the connection-failure path. -/
def connectFailEvents : List Event :=
  [Event.socketCreate AF_INET SOCK_STREAM 0,
   Event.connectAttempt SERVER_ADDR PORT,
   Event.print Msg.connectionFailed]

/-- The buffer-independent shape of a receive loop run: how many data
messages are printed and whether the loop ends in the error state, as a
function of the OS outcomes alone. -/
def loopShape : List RecvOutcome → Option (Nat × Bool)
  | [] => none
  | (RecvOutcome.avail bs) :: rest =>
      if (bs.take BUFFER_SIZE).length > 0 then
        (loopShape rest).map (fun q => (q.1 + 1, q.2))
      else some (0, false)
  | RecvOutcome.closed :: _ => some (0, false)
  | RecvOutcome.sockError :: _ => some (0, true)

end GBEmuDriver

namespace GBEmuDriver

/-! ## Theorems -/

/-- C2: for every run in which Winsock initializes and the socket is
created but the connect step fails, the program prints exactly the
socket-creation call, the connect attempt, and the connection-failure
message, and exits with code 1; no received-data or receive-error message
is printed and the receive loop is never entered. -/
theorem C2_connect_failure (env : Env) (initBuf : List Nat)
    (hw : env.wsaStartupOk = true) (hs : env.socketOk = true)
    (hc : env.connectOk = false) :
    driverMain env initBuf = some (connectFailEvents, 1) ∧
    (∀ s, Event.print (Msg.received s) ∉ connectFailEvents) ∧
    Event.print Msg.receiveFailed ∉ connectFailEvents := by
  refine ⟨by simp [driverMain, hw, hs, hc, connectFailEvents], ?_,
    by simp [connectFailEvents]⟩
  intro s
  simp [connectFailEvents]

/-- Witness for C2 at a concrete environment. -/
theorem C2_connect_failure_witness :
    driverMain ⟨true, true, false, []⟩ [] = some (connectFailEvents, 1) :=
  (C2_connect_failure ⟨true, true, false, []⟩ [] rfl rfl rfl).1

/-- C4: for every run in which the peer closes immediately (the first
receive outcome is a clean close), the program prints the success message,
no data message and no receive-error message, performs teardown, and exits
with code 0. -/
theorem C4_immediate_close (env : Env) (initBuf : List Nat)
    (rest : List RecvOutcome)
    (hw : env.wsaStartupOk = true) (hs : env.socketOk = true)
    (hc : env.connectOk = true)
    (hr : env.recvOutcomes = RecvOutcome.closed :: rest) :
    driverMain env initBuf = some (connectedPrefix ++ teardownEvents, 0) ∧
    (∀ s, Event.print (Msg.received s) ∉ connectedPrefix ++ teardownEvents) ∧
    Event.print Msg.receiveFailed ∉ connectedPrefix ++ teardownEvents := by
  refine ⟨?_, ?_, by simp [connectedPrefix, teardownEvents]⟩
  · simp [driverMain, hw, hs, hc, hr, recvLoop, connectedPrefix, teardownEvents]
  · intro s
    simp [connectedPrefix, teardownEvents]

/-- Witness for C4 at a concrete environment. -/
theorem C4_immediate_close_witness :
    driverMain ⟨true, true, true, [RecvOutcome.closed]⟩ []
      = some (connectedPrefix ++ teardownEvents, 0) :=
  (C4_immediate_close ⟨true, true, true, [RecvOutcome.closed]⟩ [] [] rfl rfl rfl rfl).1

set_option maxRecDepth 8192 in
/-- C10: printing the buffer as a C string is not bounded by the length of
the received chunk.  In the run that receives `[65, 66, 67]` then `[88]`
into a zeroed buffer, the message for the one-byte chunk `[88]` is
`[88, 66, 67]` — longer than the chunk and containing the stale bytes 66
and 67 of the earlier chunk; and a first read of `[88]` into a buffer
holding indeterminate nonzero bytes emits the whole 256-byte buffer. -/
theorem C10_stale_bytes :
    recvLoop [RecvOutcome.avail [65, 66, 67], RecvOutcome.avail [88],
              RecvOutcome.closed] (List.replicate 256 0)
      = some ([[65, 66, 67], [88, 66, 67]], false) ∧
    ([88] : List Nat).length < ([88, 66, 67] : List Nat).length ∧
    (66 : Nat) ∈ ([88, 66, 67] : List Nat) ∧
    (66 : Nat) ∉ ([88] : List Nat) ∧
    recvLoop [RecvOutcome.avail [88], RecvOutcome.closed] (List.replicate 256 7)
      = some ([88 :: List.replicate 255 7], false) := by
  refine ⟨by rfl, by decide, by decide, by decide, by rfl⟩

end GBEmuDriver

namespace GBEmuDriver

/-- Helper: the receive loop prints exactly one message per consumed chunk
— the C-string reading of each successive buffer state. -/
theorem recvLoop_messages (outs : List RecvOutcome) :
    ∀ (buf : List Nat) (msgs : List (List Nat)) (e : Bool),
      recvLoop outs buf = some (msgs, e) →
      msgs = (bufferStates buf (consumedChunks outs)).map cstr := by
  induction outs with
  | nil => intro buf msgs e h; simp [recvLoop] at h
  | cons o rest ih =>
    intro buf msgs e h
    cases o with
    | avail bs =>
      by_cases hlen : (bs.take BUFFER_SIZE).length > 0
      · simp only [recvLoop, if_pos hlen] at h
        rcases Option.map_eq_some'.mp h with ⟨⟨ms, e'⟩, hrec, hfp⟩
        have h1 : cstr (writeBytes buf (bs.take BUFFER_SIZE)) :: ms = msgs :=
          congrArg Prod.fst hfp
        subst h1
        simp only [consumedChunks, if_pos hlen, bufferStates, List.map]
        exact congrArg _ (ih (writeBytes buf (bs.take BUFFER_SIZE)) ms e' hrec)
      · simp only [recvLoop, if_neg hlen, Option.some.injEq, Prod.mk.injEq] at h
        simp only [consumedChunks, if_neg hlen, bufferStates, List.map]
        exact h.1.symm
    | closed =>
      simp only [recvLoop, Option.some.injEq, Prod.mk.injEq] at h
      simp only [consumedChunks, bufferStates, List.map]
      exact h.1.symm
    | sockError =>
      simp only [recvLoop, Option.some.injEq, Prod.mk.injEq] at h
      simp only [consumedChunks, bufferStates, List.map]
      exact h.1.symm

/-- Helper: every chunk the loop consumes has length at most
`BUFFER_SIZE`, because `recv` is called with length `BUFFER_SIZE`. -/
theorem consumedChunks_le (outs : List RecvOutcome) :
    ∀ c ∈ consumedChunks outs, c.length ≤ BUFFER_SIZE := by
  induction outs with
  | nil => simp [consumedChunks]
  | cons o rest ih =>
    cases o with
    | avail bs =>
      by_cases hlen : (bs.take BUFFER_SIZE).length > 0
      · simp only [consumedChunks, if_pos hlen, List.mem_cons]
        rintro c (rfl | hc)
        · simp [List.length_take]
        · exact ih c hc
      · simp only [consumedChunks, if_neg hlen]
        simp
    | closed => simp [consumedChunks]
    | sockError => simp [consumedChunks]

/-- Helper: when every outcome before a socket error is a nonempty
delivery, the loop consumes them all and ends in the error state. -/
theorem recvLoop_error_reached (pre : List RecvOutcome) (rest : List RecvOutcome) :
    ∀ buf : List Nat, (∀ o ∈ pre, ∃ bs, o = RecvOutcome.avail bs ∧ bs ≠ []) →
      ∃ msgs, recvLoop (pre ++ RecvOutcome.sockError :: rest) buf = some (msgs, true) := by
  induction pre with
  | nil => exact fun buf _ => ⟨[], by simp [recvLoop]⟩
  | cons o pre' ih =>
    intro buf hall
    obtain ⟨bs, rfl, hne⟩ := hall o (by simp)
    have hlen : (bs.take BUFFER_SIZE).length > 0 := by
      simp only [List.length_take, gt_iff_lt, lt_min_iff]
      exact ⟨by simp [BUFFER_SIZE], List.length_pos.mpr hne⟩
    obtain ⟨msgs, hm⟩ := ih (writeBytes buf (bs.take BUFFER_SIZE))
      (fun o ho => hall o (by simp [ho]))
    refine ⟨cstr (writeBytes buf (bs.take BUFFER_SIZE)) :: msgs, ?_⟩
    simp [recvLoop, hm]
    exact ⟨by simp [BUFFER_SIZE], hne⟩

/-- Helper: the number of data messages and the final loop state depend
only on the OS outcomes, not on the buffer contents. -/
theorem recvLoop_toShape (outs : List RecvOutcome) :
    ∀ buf : List Nat,
      (recvLoop outs buf).map (fun p => (p.1.length, p.2)) = loopShape outs := by
  induction outs with
  | nil => intro buf; rfl
  | cons o rest ih =>
    intro buf
    cases o with
    | avail bs =>
      by_cases hlen : (bs.take BUFFER_SIZE).length > 0
      · simp only [recvLoop, loopShape, if_pos hlen]
        rw [← ih (writeBytes buf (bs.take BUFFER_SIZE))]
        cases recvLoop rest (writeBytes buf (bs.take BUFFER_SIZE)) with
        | none => rfl
        | some p => rfl
      · simp only [recvLoop, loopShape, if_neg hlen]
        rfl
    | closed => rfl
    | sockError => rfl

/-- Helper: tagging the data-message events of a run forgets the payloads,
leaving one data tag per message. -/
theorem map_eventTag_received (msgs : List (List Nat)) :
    (msgs.map (fun s => Event.print (Msg.received s))).map eventTag
      = List.replicate msgs.length (EventTag.printT MsgTag.dataT) := by
  induction msgs with
  | nil => rfl
  | cons m ms ih => simp [List.replicate_succ, ih, eventTag, msgTag]

/-- C1 (amended): in every run where Winsock initializes, the socket is
created, the connect succeeds, and the peer sends the bytes of `"hello"`
then closes, the program prints the connection-success message, then one
data message whose payload is `"hello"` followed by whatever nonzero bytes
the uninitialized buffer held after position 5 (up to the first NUL), and
exits with code 0. -/
theorem C1_amended_hello (initBuf : List Nat) :
    driverMain ⟨true, true, true, [RecvOutcome.avail helloBytes, RecvOutcome.closed]⟩ initBuf =
      some (connectedPrefix
            ++ [Event.print (Msg.received (helloBytes ++ cstr (initBuf.drop 5)))]
            ++ teardownEvents, 0) := rfl

set_option maxRecDepth 8192 in
/-- C1 counterexample: with the stack buffer initially holding 256 bytes
of value 1, the run that receives `"hello"` prints a data message of 256
bytes, and no message whose payload is exactly `"hello"` is printed — the
claim that the program prints `"hello"` (the received bytes) fails. -/
theorem C1_counterexample_stale :
    driverMain ⟨true, true, true, [RecvOutcome.avail helloBytes, RecvOutcome.closed]⟩
        (List.replicate 256 1) =
      some (connectedPrefix
            ++ [Event.print (Msg.received (helloBytes ++ List.replicate 251 1))]
            ++ teardownEvents, 0) ∧
    Event.print (Msg.received helloBytes) ∉
      (connectedPrefix
       ++ [Event.print (Msg.received (helloBytes ++ List.replicate 251 1))]
       ++ teardownEvents) := by
  refine ⟨by rfl, by decide⟩

/-- C3: in every run where the connect succeeded and a receive call
signals a socket error (after any number of nonempty deliveries), the
program prints the receive-error message, still closes the socket and
releases Winsock, and exits with status 0. -/
theorem C3_recv_error_teardown (env : Env) (initBuf : List Nat)
    (pre rest : List RecvOutcome)
    (hw : env.wsaStartupOk = true) (hs : env.socketOk = true) (hc : env.connectOk = true)
    (hr : env.recvOutcomes = pre ++ RecvOutcome.sockError :: rest)
    (hpre : ∀ o ∈ pre, ∃ bs, o = RecvOutcome.avail bs ∧ bs ≠ []) :
    ∃ msgs : List (List Nat), driverMain env initBuf =
      some (connectedPrefix
            ++ msgs.map (fun s => Event.print (Msg.received s))
            ++ [Event.print Msg.receiveFailed]
            ++ teardownEvents, 0) := by
  obtain ⟨msgs, hm⟩ := recvLoop_error_reached pre rest initBuf hpre
  refine ⟨msgs, ?_⟩
  simp [driverMain, hw, hs, hc, hr, hm, connectedPrefix, teardownEvents]

/-- Witness for C3 at a concrete environment whose first receive outcome
is a socket error. -/
theorem C3_recv_error_teardown_witness :
    ∃ msgs : List (List Nat),
      driverMain ⟨true, true, true, [RecvOutcome.sockError]⟩ (List.replicate 256 0) =
        some (connectedPrefix
              ++ msgs.map (fun s => Event.print (Msg.received s))
              ++ [Event.print Msg.receiveFailed]
              ++ teardownEvents, 0) :=
  C3_recv_error_teardown ⟨true, true, true, [RecvOutcome.sockError]⟩
    (List.replicate 256 0) [] [] rfl rfl rfl rfl (by simp)

/-- C5: in every run where Winsock initialization fails, or initialization
succeeds but socket creation fails, the program prints an error message
and exits with status 1, making no connect attempt, printing no data or
success message, and performing no teardown. -/
theorem C5_early_fatal (env : Env) (initBuf : List Nat)
    (h : env.wsaStartupOk = false ∨ (env.wsaStartupOk = true ∧ env.socketOk = false)) :
    ∃ evs, driverMain env initBuf = some (evs, 1) ∧
      (∃ m, Event.print m ∈ evs) ∧
      (∀ a p, Event.connectAttempt a p ∉ evs) ∧
      (∀ s, Event.print (Msg.received s) ∉ evs) ∧
      Event.print Msg.connected ∉ evs ∧
      Event.closesocket ∉ evs ∧ Event.wsaCleanup ∉ evs := by
  rcases h with hw | ⟨hw, hs⟩
  · refine ⟨[Event.print Msg.wsaStartupFailed], by simp [driverMain, hw],
      ⟨Msg.wsaStartupFailed, by simp⟩, ?_, ?_, by simp, by simp, by simp⟩
    · intro a p; simp
    · intro s; simp
  · refine ⟨[Event.socketCreate AF_INET SOCK_STREAM 0, Event.print Msg.socketCreationFailed],
      by simp [driverMain, hw, hs], ⟨Msg.socketCreationFailed, by simp⟩, ?_, ?_,
      by simp, by simp, by simp⟩
    · intro a p; simp
    · intro s; simp

/-- Witness for C5 at a concrete environment whose Winsock initialization
fails. -/
theorem C5_early_fatal_witness :
    ∃ evs, driverMain ⟨false, true, true, []⟩ [] = some (evs, 1) ∧
      (∃ m, Event.print m ∈ evs) ∧
      (∀ a p, Event.connectAttempt a p ∉ evs) ∧
      (∀ s, Event.print (Msg.received s) ∉ evs) ∧
      Event.print Msg.connected ∉ evs ∧
      Event.closesocket ∉ evs ∧ Event.wsaCleanup ∉ evs :=
  C5_early_fatal ⟨false, true, true, []⟩ [] (Or.inl rfl)

/-- C6: on the connection-failure path the program exits with status 1
without closing the socket and without releasing Winsock; and any run
whose trace contains `closesocket` or `WSACleanup` is one in which
initialization, socket creation and connect all succeeded (i.e. the
receive loop was entered). -/
theorem C6_no_teardown_on_connect_failure (env : Env) (initBuf : List Nat) :
    (env.wsaStartupOk = true → env.socketOk = true → env.connectOk = false →
      driverMain env initBuf = some (connectFailEvents, 1) ∧
      Event.closesocket ∉ connectFailEvents ∧ Event.wsaCleanup ∉ connectFailEvents) ∧
    (∀ evs code, driverMain env initBuf = some (evs, code) →
      Event.closesocket ∈ evs ∨ Event.wsaCleanup ∈ evs →
      env.wsaStartupOk = true ∧ env.socketOk = true ∧ env.connectOk = true) := by
  constructor
  · intro hw hs hc
    exact ⟨by simp [driverMain, hw, hs, hc, connectFailEvents],
      by simp [connectFailEvents], by simp [connectFailEvents]⟩
  · intro evs code h hmem
    by_cases hw : env.wsaStartupOk = true
    · by_cases hs : env.socketOk = true
      · by_cases hc : env.connectOk = true
        · exact ⟨hw, hs, hc⟩
        · rw [Bool.not_eq_true] at hc
          exfalso
          simp only [driverMain, hw, hs, hc] at h
          simp at h
          obtain ⟨h1, h2⟩ := h
          subst h1
          simp at hmem
      · rw [Bool.not_eq_true] at hs
        exfalso
        simp only [driverMain, hs] at h
        simp [hw] at h
        obtain ⟨h1, h2⟩ := h
        subst h1
        simp at hmem
    · rw [Bool.not_eq_true] at hw
      exfalso
      simp only [driverMain, hw] at h
      simp at h
      obtain ⟨h1, h2⟩ := h
      subst h1
      simp at hmem

/-- Witness for C6 at a concrete environment whose connect step fails. -/
theorem C6_no_teardown_witness :
    driverMain ⟨true, true, false, [RecvOutcome.closed]⟩ [] = some (connectFailEvents, 1) ∧
    Event.closesocket ∉ connectFailEvents :=
  ⟨((C6_no_teardown_on_connect_failure ⟨true, true, false, [RecvOutcome.closed]⟩ []).1
      rfl rfl rfl).1,
   ((C6_no_teardown_on_connect_failure ⟨true, true, false, [RecvOutcome.closed]⟩ []).1
      rfl rfl rfl).2.1⟩

/-- C7: every connect attempt in any run targets exactly the fixed address
`127.0.0.1` and port `12345`, and every socket created is an `AF_INET`
stream (TCP) socket; the endpoint is a compile-time constant, not an
input. -/
theorem C7_fixed_endpoint (env : Env) (initBuf : List Nat) (evs : List Event) (code : Nat)
    (h : driverMain env initBuf = some (evs, code)) :
    (∀ a p, Event.connectAttempt a p ∈ evs → a = SERVER_ADDR ∧ p = PORT) ∧
    (∀ f t pr, Event.socketCreate f t pr ∈ evs →
      f = AF_INET ∧ t = SOCK_STREAM ∧ pr = 0) := by
  by_cases hw : env.wsaStartupOk = true
  · by_cases hs : env.socketOk = true
    · by_cases hc : env.connectOk = true
      · simp only [driverMain, hw, hs, hc, Bool.true_eq_false, if_false] at h
        rcases Option.map_eq_some'.mp h with ⟨⟨msgs, err⟩, hp, hfp⟩
        have h1 : _ = evs := congrArg Prod.fst hfp
        subst h1
        cases err <;>
          refine ⟨fun a q hmem => ?_, fun f t pr hmem => ?_⟩ <;>
          · simp at hmem
            try exact hmem
      · rw [Bool.not_eq_true] at hc
        simp only [driverMain, hw, hs, hc] at h
        simp at h
        obtain ⟨h1, h2⟩ := h
        subst h1
        refine ⟨fun a q hmem => ?_, fun f t pr hmem => ?_⟩ <;>
        · simp at hmem
          try exact hmem
    · rw [Bool.not_eq_true] at hs
      simp only [driverMain, hs] at h
      simp [hw] at h
      obtain ⟨h1, h2⟩ := h
      subst h1
      refine ⟨fun a q hmem => ?_, fun f t pr hmem => ?_⟩ <;>
      · simp at hmem
        try exact hmem
  · rw [Bool.not_eq_true] at hw
    simp only [driverMain, hw] at h
    simp at h
    obtain ⟨h1, h2⟩ := h
    subst h1
    exact ⟨fun a q hmem => by simp at hmem, fun f t pr hmem => by simp at hmem⟩

/-- Witness for C7 at a concrete run that reaches the connect call. -/
theorem C7_fixed_endpoint_witness :
    ("127.0.0.1" : String) = SERVER_ADDR ∧ (12345 : Nat) = PORT :=
  (C7_fixed_endpoint ⟨true, true, false, []⟩ [] connectFailEvents 1 (by rfl)).1
    "127.0.0.1" 12345 (by decide)

/-- C8: in every terminating receive-loop run, the printed messages are
exactly one per consumed chunk in arrival order — the C-string reading of
the buffer after that chunk is written — and every consumed chunk has at
most `BUFFER_SIZE` (256) bytes. -/
theorem C8_chunk_messages (outs : List RecvOutcome) (buf : List Nat)
    (msgs : List (List Nat)) (e : Bool)
    (h : recvLoop outs buf = some (msgs, e)) :
    msgs = (bufferStates buf (consumedChunks outs)).map cstr ∧
    ∀ c ∈ consumedChunks outs, c.length ≤ BUFFER_SIZE :=
  ⟨recvLoop_messages outs buf msgs e h, consumedChunks_le outs⟩

/-- Witness for C8 at a concrete run receiving one two-byte chunk. -/
theorem C8_chunk_messages_witness :
    [[1, 2]] = (bufferStates (List.replicate 256 0)
        (consumedChunks [RecvOutcome.avail [1, 2], RecvOutcome.closed])).map cstr :=
  (C8_chunk_messages [RecvOutcome.avail [1, 2], RecvOutcome.closed]
    (List.replicate 256 0) [[1, 2]] false (by rfl)).1

/-- C9: the program is deterministic over the OS-visible outcomes — two
runs with the same init/socket/connect outcomes and the same receive
outcomes produce the same sequence of event tags (message types) and the
same exit code, whatever the indeterminate initial buffer contents. -/
theorem C9_deterministic (env : Env) (b1 b2 : List Nat) :
    (driverMain env b1).map observable = (driverMain env b2).map observable := by
  by_cases hw : env.wsaStartupOk = true
  · by_cases hs : env.socketOk = true
    · by_cases hc : env.connectOk = true
      · simp only [driverMain, hw, hs, hc, Bool.true_eq_false, if_false, Option.map_map]
        have h1 := recvLoop_toShape env.recvOutcomes b1
        have h2 := recvLoop_toShape env.recvOutcomes b2
        cases hl1 : recvLoop env.recvOutcomes b1 with
        | none =>
          cases hl2 : recvLoop env.recvOutcomes b2 with
          | none => rfl
          | some q =>
            rw [hl1] at h1; rw [hl2] at h2
            rw [← h2] at h1
            simp at h1
        | some p =>
          cases hl2 : recvLoop env.recvOutcomes b2 with
          | none =>
            rw [hl1] at h1; rw [hl2] at h2
            rw [← h2] at h1
            simp at h1
          | some q =>
            rw [hl1] at h1; rw [hl2] at h2
            rw [← h2] at h1
            simp only [Option.map_some', Option.some.injEq, Prod.mk.injEq] at h1
            simp only [Option.map_some', Function.comp]
            congr 1
            simp only [observable, List.map_append, map_eventTag_received]
            rw [h1.1, h1.2]
      · simp [driverMain, hw, hs, hc]
    · simp [driverMain, hw, hs]
  · simp [driverMain, hw]

end GBEmuDriver
